import Mathlib

/-!
Verification of the maxbot update-dispatch core (`maxbot/types.py`,
`maxbot/filters.py`, `maxbot/dispatcher.py`) against its design
specification.

The embedding is shallow: each Python function is translated into an
executable Lean definition over a JSON-like runtime value type.  Places
where the Python code can raise an exception (attribute access on a
non-dict, iteration over a non-iterable) are modelled with `Except`;
scalar dataclass fields are read at their annotated types (`int`, `str`,
`bool`), with a raw value of a different runtime type viewed through the
annotation's default — the platform API only ever supplies well-typed
scalars, and no verified property depends on ill-typed scalar values.
-/

/-- JSON-like runtime value for raw API payloads.  `none` is Python's
`None`; numbers are modelled as integers; a `dict` is an association
list whose keys are distinct (as in a decoded JSON object). -/
inductive RawVal where
  | none
  | bool (b : Bool)
  | int (n : Int)
  | str (s : String)
  | list (xs : List RawVal)
  | dict (entries : List (String × RawVal))
  deriving BEq

/-- Python truthiness of a raw value (`bool(v)`). -/
def RawVal.truthy : RawVal → Bool
  | .none => false
  | .bool b => b
  | .int n => n != 0
  | .str s => s != ""
  | .list xs => !xs.isEmpty
  | .dict es => !es.isEmpty

/-- Source `v.get(k)` without a default: `some` the stored value when the key is
present, `none` when absent; raises `AttributeError` when `v` is not a
dict (Python resolves `.get` on the object). -/
def RawVal.get : RawVal → String → Except String (Option RawVal)
  | .dict es, k => .ok (es.lookup k)
  | _, _ => .error "AttributeError"

/-- Source `v.get(k, dflt)`: the stored value when the key is present (even when
that value is `None`), otherwise the default. -/
def RawVal.getD (v : RawVal) (k : String) (dflt : RawVal) : Except String RawVal := do
  let r ← v.get k
  pure (r.getD dflt)

/-- Source `v.get(k)` seen as an optional value: collapses both "key absent" and
"key stored as `None`" to `Option.none`, matching how the Python code
only ever tests such results against `None` or for truthiness. -/
def RawVal.getOpt (v : RawVal) (k : String) : Except String (Option RawVal) := do
  let r ← v.get k
  pure (match r with
    | some RawVal.none => Option.none
    | some w => some w
    | Option.none => Option.none)

/-- Python iteration `for x in v`: a list yields its elements, a string
its characters, a dict its keys; other values raise `TypeError`. -/
def RawVal.pyIter : RawVal → Except String (List RawVal)
  | .list xs => .ok xs
  | .str s => .ok (s.data.map (fun c => .str (String.mk [c])))
  | .dict es => .ok (es.map (fun e => .str e.1))
  | _ => .error "TypeError"

/-- View a raw value at annotation `Optional[str]`. -/
def RawVal.asStr? : RawVal → Option String
  | .str s => some s
  | _ => Option.none

/-- View a raw value at annotation `Optional[int]`. -/
def RawVal.asInt? : RawVal → Option Int
  | .int n => some n
  | _ => Option.none

/-- View a raw value at annotation `str`, with the field's default. -/
def RawVal.asStrD (v : RawVal) (dflt : String) : String :=
  match v with
  | .str s => s
  | _ => dflt

/-- View a raw value at annotation `int`, with the field's default. -/
def RawVal.asIntD (v : RawVal) (dflt : Int) : Int :=
  match v with
  | .int n => n
  | _ => dflt

/-- View a raw value at annotation `bool`, with the field's default. -/
def RawVal.asBoolD (v : RawVal) (dflt : Bool) : Bool :=
  match v with
  | .bool b => b
  | _ => dflt

/-- Source `class User` (types.py). -/
structure User where
  user_id : Int
  first_name : String
  last_name : Option String := Option.none
  username : Option String := Option.none
  is_bot : Bool := false
  last_activity_time : Option Int := Option.none
  description : Option String := Option.none
  avatar_url : Option String := Option.none
  full_avatar_url : Option String := Option.none

/-- Source `User.from_dict` (types.py). -/
def User.from_dict (data : RawVal) : Except String User := do
  pure {
    user_id := (← data.getD "user_id" (.int 0)).asIntD 0
    first_name := (← data.getD "first_name" (.str "")).asStrD ""
    last_name := (← data.getOpt "last_name").bind RawVal.asStr?
    username := (← data.getOpt "username").bind RawVal.asStr?
    is_bot := (← data.getD "is_bot" (.bool false)).asBoolD false
    last_activity_time := (← data.getOpt "last_activity_time").bind RawVal.asInt?
    description := (← data.getOpt "description").bind RawVal.asStr?
    avatar_url := (← data.getOpt "avatar_url").bind RawVal.asStr?
    full_avatar_url := (← data.getOpt "full_avatar_url").bind RawVal.asStr? }

/-- Source `User.full_name` property. -/
def User.full_name (u : User) : String :=
  match u.last_name with
  | some ln => u.first_name ++ " " ++ ln
  | Option.none => u.first_name

/-- Source `User.mention` property. -/
def User.mention (u : User) : String :=
  match u.username with
  | some un => "@" ++ un
  | Option.none => u.first_name

/-- Source `class Recipient` (types.py). -/
structure Recipient where
  chat_id : Option Int := Option.none
  chat_type : Option String := Option.none
  user_id : Option Int := Option.none

/-- Source `Recipient.from_dict` (types.py). -/
def Recipient.from_dict (data : RawVal) : Except String Recipient := do
  pure {
    chat_id := (← data.getOpt "chat_id").bind RawVal.asInt?
    chat_type := (← data.getOpt "chat_type").bind RawVal.asStr?
    user_id := (← data.getOpt "user_id").bind RawVal.asInt? }

/-- Source `class Attachment` (types.py). -/
structure Attachment where
  type : String
  payload : Option RawVal := Option.none

/-- Source `Attachment.from_dict` (types.py). -/
def Attachment.from_dict (data : RawVal) : Except String Attachment := do
  pure {
    type := (← data.getD "type" (.str "")).asStrD ""
    payload := ← data.getOpt "payload" }

/-- Source `class MessageBody` (types.py). -/
structure MessageBody where
  mid : String
  seq : Int
  text : Option String := Option.none
  attachments : List Attachment := []

/-- Source `MessageBody.from_dict` (types.py): a truthy `attachments` value is
iterated and each element parsed; a falsy one yields the empty list. -/
def MessageBody.from_dict (data : RawVal) : Except String MessageBody := do
  let attachments_data ← data.getD "attachments" (.list [])
  let attachments ←
    if attachments_data.truthy then do
      let items ← attachments_data.pyIter
      items.mapM Attachment.from_dict
    else pure []
  pure {
    mid := (← data.getD "mid" (.str "")).asStrD ""
    seq := (← data.getD "seq" (.int 0)).asIntD 0
    text := (← data.getOpt "text").bind RawVal.asStr?
    attachments := attachments }

/-- Source `class Chat` (types.py). -/
structure Chat where
  chat_id : Int
  type : String
  title : Option String := Option.none
  status : Option String := Option.none
  participants_count : Option Int := Option.none
  is_public : Bool := false

/-- Source `Chat.from_dict` (types.py). -/
def Chat.from_dict (data : RawVal) : Except String Chat := do
  pure {
    chat_id := (← data.getD "chat_id" (.int 0)).asIntD 0
    type := (← data.getD "type" (.str "chat")).asStrD "chat"
    title := (← data.getOpt "title").bind RawVal.asStr?
    status := (← data.getOpt "status").bind RawVal.asStr?
    participants_count := (← data.getOpt "participants_count").bind RawVal.asInt?
    is_public := (← data.getD "is_public" (.bool false)).asBoolD false }

/-- Source `class Message` (types.py).  The private `_chat` convenience field is
named `chat_` here (Lean reserves a leading underscore pattern). -/
structure Message where
  body : MessageBody
  recipient : Recipient
  timestamp : Int
  sender : Option User := Option.none
  link : Option RawVal := Option.none
  stat : Option RawVal := Option.none
  url : Option String := Option.none
  chat_ : Option Chat := Option.none

/-- Source `Message.from_dict` (types.py): `sender` is parsed only when present
and truthy; `recipient` and `body` are parsed from the stored value,
defaulting to an empty dict when the key is absent. -/
def Message.from_dict (data : RawVal) : Except String Message := do
  let sender_data ← data.getD "sender" RawVal.none
  let sender ←
    if sender_data.truthy then (fun u => some u) <$> User.from_dict sender_data
    else pure Option.none
  let recipient_data ← data.getD "recipient" (.dict [])
  let recipient ← Recipient.from_dict recipient_data
  let body_data ← data.getD "body" (.dict [])
  let body ← MessageBody.from_dict body_data
  pure {
    sender := sender
    recipient := recipient
    body := body
    timestamp := (← data.getD "timestamp" (.int 0)).asIntD 0
    link := ← data.getOpt "link"
    stat := ← data.getOpt "stat"
    url := (← data.getOpt "url").bind RawVal.asStr? }

/-- Source `Message.text` property. -/
def Message.text (m : Message) : Option String := m.body.text

/-- Source `Message.message_id` property. -/
def Message.message_id (m : Message) : String := m.body.mid

/-- Source `Message.chat_id` property. -/
def Message.chat_id (m : Message) : Option Int := m.recipient.chat_id

/-- Source `Message.user_id` property. -/
def Message.user_id (m : Message) : Option Int := m.sender.map User.user_id

/-- Source `Message.from_user` property (alias for `sender`). -/
def Message.from_user (m : Message) : Option User := m.sender

/-- Source `class Callback` (types.py). -/
structure Callback where
  timestamp : Int
  callback_id : String
  user : User
  payload : Option String := Option.none
  message : Option Message := Option.none

/-- Source `Callback.from_dict` (types.py): the `user` value defaults to an
empty dict when absent. -/
def Callback.from_dict (data : RawVal) (message : Option Message) : Except String Callback := do
  let user_data ← data.getD "user" (.dict [])
  let user ← User.from_dict user_data
  pure {
    timestamp := (← data.getD "timestamp" (.int 0)).asIntD 0
    callback_id := (← data.getD "callback_id" (.str "")).asStrD ""
    user := user
    payload := (← data.getOpt "payload").bind RawVal.asStr?
    message := message }

/-- The kind of an update: the closed `UpdateType` enumeration of
types.py, plus an escape case for a raw `update_type` value that is not
a member — `Update.from_dict` catches the `ValueError` from the enum
constructor and keeps the raw value verbatim. -/
inductive UpdateKind where
  | message_created
  | message_edited
  | message_removed
  | message_callback
  | bot_started
  | bot_stopped
  | bot_added
  | bot_removed
  | user_added
  | user_removed
  | chat_title_changed
  | message_chat_created
  | other (raw : RawVal)
  deriving BEq

/-- Source `UpdateType(update_type_str)` wrapped in `try/except ValueError`
(types.py, `Update.from_dict`): one of the twelve member strings yields
the member, anything else is kept verbatim. -/
def classifyUpdateType (v : RawVal) : UpdateKind :=
  match v with
  | .str s =>
    if s = "message_created" then .message_created
    else if s = "message_edited" then .message_edited
    else if s = "message_removed" then .message_removed
    else if s = "message_callback" then .message_callback
    else if s = "bot_started" then .bot_started
    else if s = "bot_stopped" then .bot_stopped
    else if s = "bot_added" then .bot_added
    else if s = "bot_removed" then .bot_removed
    else if s = "user_added" then .user_added
    else if s = "user_removed" then .user_removed
    else if s = "chat_title_changed" then .chat_title_changed
    else if s = "message_chat_created" then .message_chat_created
    else .other (.str s)
  | w => .other w

/-- Source `class Update` (types.py). -/
structure Update where
  update_type : UpdateKind
  timestamp : Int
  raw_data : RawVal
  message : Option Message := Option.none
  callback : Option Callback := Option.none
  user : Option User := Option.none
  chat_id : Option Int := Option.none
  payload : Option String := Option.none
  user_locale : Option String := Option.none

/-- Source `Update.from_dict` (types.py): classification of `update_type`, then
the message / callback / user sub-records, each parsed iff its raw value
is present and truthy. -/
def Update.from_dict (data : RawVal) : Except String Update := do
  let update_type_str ← data.getD "update_type" (.str "")
  let update_type := classifyUpdateType update_type_str
  let message_data ← data.getD "message" RawVal.none
  let message ←
    if message_data.truthy then (fun m => some m) <$> Message.from_dict message_data
    else pure Option.none
  let callback_data ← data.getD "callback" RawVal.none
  let callback ←
    if callback_data.truthy then (fun c => some c) <$> Callback.from_dict callback_data message
    else pure Option.none
  let user_data ← data.getD "user" RawVal.none
  let user ←
    if user_data.truthy then (fun u => some u) <$> User.from_dict user_data
    else pure Option.none
  pure {
    update_type := update_type
    timestamp := (← data.getD "timestamp" (.int 0)).asIntD 0
    raw_data := data
    message := message
    callback := callback
    user := user
    chat_id := (← data.getOpt "chat_id").bind RawVal.asInt?
    payload := (← data.getOpt "payload").bind RawVal.asStr?
    user_locale := (← data.getOpt "user_locale").bind RawVal.asStr? }

/-- Python whitespace as used by `str.strip()` and no-argument
`str.split()` (ASCII whitespace; the rare Unicode space characters also
stripped by Python are outside the payloads considered here). -/
def isPySpace (c : Char) : Bool :=
  c = ' ' || c = '\t' || c = '\n' || c = '\r' || c.toNat = 0x0B || c.toNat = 0x0C

/-- Source `s.strip()`: remove leading and trailing whitespace. -/
def pyStrip (s : String) : String :=
  String.mk (((s.data.dropWhile isPySpace).reverse.dropWhile isPySpace).reverse)

/-- Split a character list at every character satisfying `p`, keeping
empty segments (the list of maximal segments between separators). -/
def splitChars (p : Char → Bool) : List Char → List (List Char)
  | [] => [[]]
  | c :: cs =>
    if p c then [] :: splitChars p cs
    else
      match splitChars p cs with
      | [] => [[c]]
      | w :: ws => (c :: w) :: ws

/-- Source `s.split()` with no argument: maximal runs of non-whitespace
characters, with no empty parts. -/
def pySplitWS (s : String) : List String :=
  ((splitChars isPySpace s.data).map String.mk).filter (fun part => part != "")

/-- Source `s.split()[0]` guarded by non-emptiness in the source (`[0]` on the
empty list would raise, but every use site has already ensured a
non-empty stripped string, so the split is non-empty). -/
def pyFirstToken (s : String) : String :=
  (pySplitWS s).headD ""

/-- Source `s.split('@')[0]`: the characters before the first `@`. -/
def pyBeforeAt (s : String) : String :=
  String.mk (s.data.takeWhile (fun c => c != '@'))

/-- Source `s.startswith(pre)`. -/
def pyStartsWith (s pre : String) : Bool :=
  pre.data.isPrefixOf s.data

/-- Source `needle in hay` on character lists: some suffix of `hay` has `needle`
as a prefix. -/
def pyInChars (needle : List Char) : List Char → Bool
  | [] => needle.isEmpty
  | c :: cs => needle.isPrefixOf (c :: cs) || pyInChars needle cs

/-- Source `needle in hay` on strings: substring containment. -/
def pyIn (needle hay : String) : Bool :=
  pyInChars needle.data hay.data

/-- Truthiness of an `Optional[List[str]]` filter field (`None` and the
empty list are falsy). -/
def truthyStrList : Option (List String) → Bool
  | some (_ :: _) => true
  | _ => false

/-- Truthiness of an `Optional[str]` filter field (`None` and the empty
string are falsy). -/
def truthyStr : Option String → Bool
  | some s => s != ""
  | Option.none => false

namespace Maxbot

/-- The filter classes of filters.py as a closed syntax: each constructor
carries exactly the fields the corresponding class stores after
`__init__` (so a `Union[str, List[str]]` argument appears already
wrapped into a list, as `__init__` does). `AndFilter` / `OrFilter` take
`*filters`; `StateFilter` is the FSM placeholder. -/
inductive Filter where
  | and (filters : List Filter)
  | or (filters : List Filter)
  | not (f : Filter)
  | text (text : Option (List String)) (contains : Option String)
  | command (commands : Option (List String))
  | chatType (chat_types : List String)
  | user (user_ids : List Int)
  | callbackData (data : Option (List String)) (startswith : Option String)
  | state

/-- Source `CommandFilter.__init__` with the `Union[str, List[str]]` argument
already wrapped into a list (the `str` overload passes `[s]`): a falsy
argument (here: the empty list) stores `None`; otherwise every command
is normalized to start with `/`. -/
def mkCommandFilter (commands : List String) : Filter :=
  if commands.isEmpty then .command Option.none
  else .command (some (commands.map (fun cmd =>
    if pyStartsWith cmd "/" then cmd else "/" ++ cmd)))

/-- The `user_id` resolution chain of `UserFilter.check`: the sender of
the update's message when both exist, else the callback's user, else the
update's user, else `None`. -/
def resolvedUserId (u : Update) : Option Int :=
  match u.message.bind (fun m => m.sender), u.callback, u.user with
  | some s, _, _ => some s.user_id
  | Option.none, some c, _ => some c.user.user_id
  | Option.none, Option.none, some usr => some usr.user_id
  | Option.none, Option.none, Option.none => Option.none

mutual

/-- Source `check` of each filter class in filters.py.  Leaf guards follow the
source: a falsy message text (`None` or `""`) fails Text/Command, a
falsy callback payload fails CallbackData, a falsy chat type fails
ChatType, and a falsy resolved user id (`None` or `0`) fails User. -/
def Filter.check : Filter → Update → Bool
  | .and fs, u => Filter.checkAll fs u
  | .or fs, u => Filter.checkAny fs u
  | .not f, u => !(Filter.check f u)
  | .text txt contains, u =>
    match u.message with
    | Option.none => false
    | some m =>
      match m.text with
      | Option.none => false
      | some msg_text =>
        if msg_text = "" then false
        else if truthyStrList txt then (txt.getD []).contains msg_text
        else if truthyStr contains then pyIn (contains.getD "") msg_text
        else true
  | .command cmds, u =>
    match u.message with
    | Option.none => false
    | some m =>
      match m.text with
      | Option.none => false
      | some raw_text =>
        if raw_text = "" then false
        else
          let text := pyStrip raw_text
          if !pyStartsWith text "/" then false
          else
            let command := pyBeforeAt (pyFirstToken text)
            match cmds with
            | some cs => cs.contains command
            | Option.none => true
  | .chatType cts, u =>
    match u.message with
    | Option.none => false
    | some m =>
      match m.recipient.chat_type with
      | some ct => if ct != "" then cts.contains ct else false
      | Option.none => false
  | .user ids, u =>
    match resolvedUserId u with
    | some n => if n != 0 then ids.contains n else false
    | Option.none => false
  | .callbackData dat sw, u =>
    match u.callback with
    | Option.none => false
    | some c =>
      match c.payload with
      | Option.none => false
      | some payload =>
        if payload = "" then false
        else if truthyStrList dat then (dat.getD []).contains payload
        else if truthyStr sw then pyStartsWith payload (sw.getD "")
        else true
  | .state, _ => true

/-- Source `all(f.check(update) for f in self.filters)` (AndFilter.check), and
also the filter loop of `Handler.check`. -/
def Filter.checkAll : List Filter → Update → Bool
  | [], _ => true
  | f :: fs, u => Filter.check f u && Filter.checkAll fs u

/-- Source `any(f.check(update) for f in self.filters)` (OrFilter.check). -/
def Filter.checkAny : List Filter → Update → Bool
  | [], _ => false
  | f :: fs, u => Filter.check f u || Filter.checkAny fs u

end

/-- What `Handler.handle` passes to the callback: the update's message,
its callback sub-record, or the update itself. -/
inductive DispatchPayload where
  | message (m : Option Message)
  | callback (c : Option Callback)
  | update (u : Update)

/-- Source `class Handler` (dispatcher.py).  `__init__` turns `None` filter and
update-type arguments into `[]` (`filters or []`), so the fields are
plain lists; the callback is modelled as a function whose `Except.error`
result stands for the callback raising an exception. -/
structure Handler where
  callback : DispatchPayload → Except String Unit
  filters : List Filter := []
  update_types : List UpdateKind := []

/-- Source `Handler.check` (dispatcher.py): the update type must be in the
handler's (non-empty) update-type list, and every filter must accept. -/
def Handler.check (h : Handler) (u : Update) : Bool :=
  if !h.update_types.isEmpty && !(h.update_types.contains u.update_type) then false
  else Filter.checkAll h.filters u

/-- The argument selection of `Handler.handle` (dispatcher.py). -/
def Handler.dispatchArg (u : Update) : DispatchPayload :=
  if [UpdateKind.message_created, UpdateKind.message_edited].contains u.update_type then
    .message u.message
  else if u.update_type == .message_callback then
    .callback u.callback
  else
    .update u

/-- Source `Handler.handle` (dispatcher.py): invoke the callback on the
kind-appropriate argument. -/
def Handler.handle (h : Handler) (u : Update) : Except String Unit :=
  h.callback (Handler.dispatchArg u)

/-- Source `Dispatcher.process_update` (dispatcher.py) with the invocations made
observable: returns the positions (from `i`) of the handlers whose
callbacks were invoked, in invocation order.  The `break` after
`handler.handle` sits inside the `try`, so when a callback raises, the
exception is caught and logged and the `for` loop continues with the
next handler; only a callback that returns normally reaches the `break`. -/
def processUpdateFrom : List Handler → Nat → Update → List Nat
  | [], _, _ => []
  | h :: hs, i, u =>
    if h.check u then
      match h.handle u with
      | .ok _ => [i]
      | .error _ => i :: processUpdateFrom hs (i + 1) u
    else processUpdateFrom hs (i + 1) u

/-- Source `Dispatcher.process_update` over the dispatcher's handler list. -/
def processUpdate (handlers : List Handler) (u : Update) : List Nat :=
  processUpdateFrom handlers 0 u

/-- Observable events of poll cycles, in order of occurrence:
`fetch m` — `bot.get_updates` called with marker `m`;
`sleep s` — `time.sleep(s)` after a failed fetch;
`dispatched js u` — a raw record parsed to `u` and dispatched, invoking
the handlers at positions `js`;
`processError r` — the per-record `try/except` caught an exception for
raw record `r` (logged);
`markerSet m` — the assignment `self.marker = new_marker`. -/
inductive PollEvent where
  | fetch (marker : Option RawVal)
  | sleep (seconds : Nat)
  | dispatched (invoked : List Nat) (u : Update)
  | processError (raw : RawVal)
  | markerSet (m : RawVal)

/-- One record of a page, as handled by the per-record `try/except` of
`_poll_updates`: a record whose parse raises is logged, a parsed update
is dispatched (`process_update` itself catches handler exceptions, so it
never raises here). -/
def processRecord (handlers : List Handler) (r : RawVal) : PollEvent :=
  match Update.from_dict r with
  | .ok u => .dispatched (processUpdate handlers u) u
  | .error _ => .processError r

/-- Source `Dispatcher._poll_updates` (dispatcher.py): one poll cycle, given the
current marker and the transport result (`RawVal.none` models
`get_updates` returning `None`).  Returns the cycle's event trace and
the marker after the cycle; an `Except.error` models an exception
propagating out of `_poll_updates` (which would end the polling loop). -/
def pollCycle (handlers : List Handler) (marker : Option RawVal) (result : RawVal) :
    Except String (List PollEvent × Option RawVal) := do
  if !result.truthy then
    pure ([.fetch marker, .sleep 5], marker)
  else do
    let updates ← result.getD "updates" (.list [])
    let new_marker ← result.getOpt "marker"
    let recs ← updates.pyIter
    let events := recs.map (processRecord handlers)
    match new_marker with
    | some m => pure (PollEvent.fetch marker :: events ++ [.markerSet m], some m)
    | Option.none => pure (PollEvent.fetch marker :: events, marker)

/-- Consecutive cycles of the `while self.running` polling loop, fed by
the successive transport results; traces are concatenated and the marker
is threaded from cycle to cycle. -/
def runCycles (handlers : List Handler) (marker : Option RawVal) :
    List RawVal → Except String (List PollEvent × Option RawVal)
  | [] => .ok ([], marker)
  | r :: rs => do
    let (evs, m) ← pollCycle handlers marker r
    let (evs2, m2) ← runCycles handlers m rs
    pure (evs ++ evs2, m2)

/-- The value of `v.get(k)` as tested against `None` by the source:
`some` iff the key is present with a non-`None` value (the pure content
of `RawVal.getOpt` on a dict). -/
def optLookup (es : List (String × RawVal)) (k : String) : Option RawVal :=
  match es.lookup k with
  | some RawVal.none => Option.none
  | some w => some w
  | Option.none => Option.none

/-- The raw value is a dict (the shape every `from_dict` needs to read
keys from without raising). -/
def dictShaped : RawVal → Bool
  | .dict _ => true
  | _ => false

/-- Shape a raw `body` value must have so `MessageBody.from_dict` cannot
raise: a dict whose `attachments` value, when present and truthy, is a
list of dicts. -/
def bodyShaped : RawVal → Bool
  | .dict es =>
    (match es.lookup "attachments" with
     | some w => !w.truthy || (match w with
        | .list xs => xs.all dictShaped
        | _ => false)
     | Option.none => true)
  | _ => false

/-- Shape a raw `message` value must have so `Message.from_dict` cannot
raise: a dict whose `sender` value (when truthy), `recipient` value and
`body` value (when present) are dicts / well-shaped. -/
def msgShaped : RawVal → Bool
  | .dict es =>
    (match es.lookup "sender" with
     | some w => !w.truthy || dictShaped w
     | Option.none => true) &&
    (match es.lookup "recipient" with
     | some w => dictShaped w
     | Option.none => true) &&
    (match es.lookup "body" with
     | some w => bodyShaped w
     | Option.none => true)
  | _ => false

/-- Shape a raw `callback` value must have so `Callback.from_dict` cannot
raise: a dict whose `user` value, when present, is a dict. -/
def cbShaped : RawVal → Bool
  | .dict es =>
    (match es.lookup "user" with
     | some w => dictShaped w
     | Option.none => true)
  | _ => false

/-- Shape a raw update payload must have so `Update.from_dict` cannot
raise: a dict whose `message` / `callback` / `user` values, when present
and truthy, are well-shaped dicts. -/
def updateShaped : RawVal → Bool
  | .dict es =>
    (match es.lookup "message" with
     | some w => !w.truthy || msgShaped w
     | Option.none => true) &&
    (match es.lookup "callback" with
     | some w => !w.truthy || cbShaped w
     | Option.none => true) &&
    (match es.lookup "user" with
     | some w => !w.truthy || dictShaped w
     | Option.none => true)
  | _ => false

/-- A handler with no filters and no update-type restriction whose
callback raises on every invocation. -/
def raisingHandler : Handler :=
  { callback := fun _ => .error "boom" }

/-- A handler with no filters and no update-type restriction whose
callback returns normally. -/
def okHandler : Handler :=
  { callback := fun _ => .ok () }

/-- A concrete message (text `/start`, dialog recipient, sender id 1). -/
def sampleMessage : Message :=
  { body := { mid := "m1", seq := 1, text := some "/start@botname arg" }
    recipient := { chat_id := some 10, chat_type := some "dialog" }
    timestamp := 0
    sender := some { user_id := 1, first_name := "Al" } }

/-- A concrete `message_created` update carrying `sampleMessage`. -/
def sampleUpdate : Update :=
  { update_type := .message_created, timestamp := 0, raw_data := .dict []
    message := some sampleMessage }

/-- A concrete update with no message, no callback and no user. -/
def bareUpdate : Update :=
  { update_type := .bot_started, timestamp := 0, raw_data := .dict [] }

/-- A concrete `message_created` update whose sender has user id 0 (as a
`User.from_dict` of a payload without `user_id` would produce). -/
def zeroIdUpdate : Update :=
  { update_type := .message_created, timestamp := 0, raw_data := .dict []
    message := some { body := { mid := "m2", seq := 2, text := some "hi" }
                      recipient := { chat_id := some 10, chat_type := some "dialog" }
                      timestamp := 0
                      sender := some { user_id := 0, first_name := "" } } }

/-- Scenario A raw payload of the specification, as entry list. -/
def scenarioA : List (String × RawVal) :=
  [("update_type", .str "message_created"),
   ("message", .dict [
     ("sender", .dict [("user_id", .int 1), ("first_name", .str "Al")]),
     ("recipient", .dict [("chat_id", .int 10), ("chat_type", .str "dialog")]),
     ("body", .dict [("mid", .str "m1"), ("seq", .int 1), ("text", .str "/start")])])]

/-- The twelve member strings of the `UpdateType` enumeration. -/
def knownKindStrings : List String :=
  ["message_created", "message_edited", "message_removed", "message_callback",
   "bot_started", "bot_stopped", "bot_added", "bot_removed",
   "user_added", "user_removed", "chat_title_changed", "message_chat_created"]

/-- A message handler (no filters, message kinds only) whose callback
returns normally. -/
def typedOkHandler : Handler :=
  { callback := fun _ => .ok ()
    update_types := [.message_created, .message_edited] }

end Maxbot

namespace Maxbot

/-- Reduction of `>>=` on an `Except.ok` (shared rewriting lemma). -/
theorem exceptBind_ok {α β : Type} (a : α) (f : α → Except String β) :
    (Except.ok a >>= f : Except String β) = f a := rfl

/-- Reduction of `>>=` on an `Except.error` (shared rewriting lemma). -/
theorem exceptBind_err {α β : Type} (e : String) (f : α → Except String β) :
    (Except.error e >>= f : Except String β) = .error e := rfl

/-- Source `pure` for `Except` is `Except.ok` (shared rewriting lemma). -/
theorem exceptPure_ok {α : Type} (a : α) :
    (pure a : Except String α) = .ok a := rfl

/-- Source `RawVal.getD` on a dict never raises and reads the association list. -/
theorem rawGetD_dict (es : List (String × RawVal)) (k : String) (dflt : RawVal) :
    RawVal.getD (.dict es) k dflt = .ok ((es.lookup k).getD dflt) := rfl

/-- Source `RawVal.getOpt` on a dict never raises and computes `optLookup`. -/
theorem rawGetOpt_dict (es : List (String × RawVal)) (k : String) :
    RawVal.getOpt (.dict es) k = .ok (optLookup es k) := rfl

/-- Source `pyIter` on a list yields its elements. -/
theorem pyIter_list (xs : List RawVal) : (RawVal.list xs).pyIter = .ok xs := rfl

/-- Source `Filter.checkAll` is the conjunction of the member checks. -/
theorem checkAll_eq_true_iff (fs : List Filter) (u : Update) :
    Filter.checkAll fs u = true ↔ ∀ f ∈ fs, f.check u = true := by
  induction fs with
  | nil => simp [Filter.checkAll]
  | cons f fs ih => simp [Filter.checkAll, ih]

/-- C4: for all filters `f`, `g` and every update `U`,
`AndFilter(f, g).check(U) = f.check(U) ∧ g.check(U)`,
`OrFilter(f, g).check(U) = f.check(U) ∨ g.check(U)`,
`NotFilter(f).check(U) = ¬ f.check(U)`; the combinators are themselves
`Filter`s (constructors of the same type), so arbitrary nestings such as
`AND(OR(a, b), NOT(c))` compose by the same equations. -/
theorem filter_combinator_laws (f g a b c : Filter) (u : Update) :
    (Filter.and [f, g]).check u = (f.check u && g.check u) ∧
    (Filter.or [f, g]).check u = (f.check u || g.check u) ∧
    (Filter.not f).check u = (!f.check u) ∧
    (Filter.and [Filter.or [a, b], Filter.not c]).check u
      = ((a.check u || b.check u) && !c.check u) := by
  refine ⟨?_, ?_, ?_, ?_⟩ <;>
    simp [Filter.check, Filter.checkAll, Filter.checkAny]

/-- C7: `Handler.check` succeeds iff the kind gate passes (empty
update-type list, i.e. kind-agnostic, or the update's kind is a member)
and every filter accepts; in particular a handler with an empty filter
list matches any update whose kind is in its declared kind set. -/
theorem handler_check_characterization (h : Handler) (u : Update) :
    (h.check u = true ↔
      ((h.update_types = [] ∨ h.update_types.contains u.update_type = true) ∧
        ∀ f ∈ h.filters, f.check u = true)) ∧
    (h.filters = [] → h.update_types.contains u.update_type = true →
      h.check u = true) := by
  constructor
  · unfold Handler.check
    by_cases he : h.update_types.isEmpty <;>
      by_cases hc : h.update_types.contains u.update_type <;>
        simp_all [checkAll_eq_true_iff, List.isEmpty_iff]
  · intro hf hc
    simp [Handler.check, hc, hf, Filter.checkAll]

/-- C7 witness: the characterization at a concrete handler and update. -/
theorem handler_check_characterization_witness :
    (Handler.check typedOkHandler sampleUpdate = true ↔
      ((typedOkHandler.update_types = [] ∨
          typedOkHandler.update_types.contains sampleUpdate.update_type = true) ∧
        ∀ f ∈ typedOkHandler.filters, f.check sampleUpdate = true)) ∧
    (typedOkHandler.filters = [] →
      typedOkHandler.update_types.contains sampleUpdate.update_type = true →
      Handler.check typedOkHandler sampleUpdate = true) :=
  handler_check_characterization typedOkHandler sampleUpdate

/-- C8: the first matching handler's callback receives the
kind-appropriate payload: the message sub-record for message kinds, the
callback sub-record for the callback kind, and the update itself for
every other kind; `handle` is exactly the callback applied to it. -/
theorem handler_dispatch_payload (u : Update) (h : Handler) :
    ((u.update_type = .message_created ∨ u.update_type = .message_edited) →
        Handler.dispatchArg u = .message u.message) ∧
    (u.update_type = .message_callback →
        Handler.dispatchArg u = .callback u.callback) ∧
    (u.update_type ≠ .message_created → u.update_type ≠ .message_edited →
      u.update_type ≠ .message_callback →
        Handler.dispatchArg u = .update u) ∧
    h.handle u = h.callback (Handler.dispatchArg u) := by
  refine ⟨?_, ?_, ?_, rfl⟩
  · rintro (h1 | h1) <;> (unfold Handler.dispatchArg; rw [h1]) <;> rfl
  · intro h1
    unfold Handler.dispatchArg
    rw [h1]
    rfl
  · intro h1 h2 h3
    unfold Handler.dispatchArg
    cases hk : u.update_type <;> first
      | rfl
      | (exfalso; first | exact h1 hk | exact h2 hk | exact h3 hk)

/-- C8 witness: the payload selection at the concrete `sampleUpdate`
(message kind) and `okHandler`. -/
theorem handler_dispatch_payload_witness :
    ((sampleUpdate.update_type = .message_created ∨
        sampleUpdate.update_type = .message_edited) →
      Handler.dispatchArg sampleUpdate = .message sampleUpdate.message) ∧
    (sampleUpdate.update_type = .message_callback →
      Handler.dispatchArg sampleUpdate = .callback sampleUpdate.callback) ∧
    (sampleUpdate.update_type ≠ .message_created →
      sampleUpdate.update_type ≠ .message_edited →
      sampleUpdate.update_type ≠ .message_callback →
        Handler.dispatchArg sampleUpdate = .update sampleUpdate) ∧
    okHandler.handle sampleUpdate = okHandler.callback (Handler.dispatchArg sampleUpdate) :=
  handler_dispatch_payload sampleUpdate okHandler

/-- C9: a leaf filter whose required field is missing evaluates to false
rather than raising: Text with no message or no text, CallbackData with
no callback or no payload, ChatType with no message or no chat type. -/
theorem leaf_filters_missing_fields (u : Update) (t : Option (List String))
    (c : Option String) (d : Option (List String)) (sw : Option String)
    (cts : List String) :
    (u.message = Option.none → (Filter.text t c).check u = false) ∧
    (∀ m, u.message = some m → m.body.text = Option.none →
      (Filter.text t c).check u = false) ∧
    (u.callback = Option.none → (Filter.callbackData d sw).check u = false) ∧
    (∀ cb, u.callback = some cb → cb.payload = Option.none →
      (Filter.callbackData d sw).check u = false) ∧
    (u.message = Option.none → (Filter.chatType cts).check u = false) ∧
    (∀ m, u.message = some m → m.recipient.chat_type = Option.none →
      (Filter.chatType cts).check u = false) := by
  refine ⟨?_, ?_, ?_, ?_, ?_, ?_⟩
  · intro h; simp [Filter.check, h]
  · intro m hm ht; simp [Filter.check, hm, Message.text, ht]
  · intro h; simp [Filter.check, h]
  · intro cb hc hp; simp [Filter.check, hc, hp]
  · intro h; simp [Filter.check, h]
  · intro m hm ht; simp [Filter.check, hm, ht]

/-- C9 witness: the missing-field cases at the concrete `bareUpdate`
(no message, no callback). -/
theorem leaf_filters_missing_fields_witness :
    (Filter.text (some ["hi"]) Option.none).check bareUpdate = false ∧
    (Filter.callbackData (some ["d"]) Option.none).check bareUpdate = false ∧
    (Filter.chatType ["dialog"]).check bareUpdate = false :=
  ⟨(leaf_filters_missing_fields bareUpdate (some ["hi"]) Option.none (some ["d"])
      Option.none ["dialog"]).1 rfl,
   (leaf_filters_missing_fields bareUpdate (some ["hi"]) Option.none (some ["d"])
      Option.none ["dialog"]).2.2.1 rfl,
   (leaf_filters_missing_fields bareUpdate (some ["hi"]) Option.none (some ["d"])
      Option.none ["dialog"]).2.2.2.2.1 rfl⟩

/-- C10: a resolved user id equal to 0 is falsy, so `UserFilter.check`
returns false — even when 0 is a member of the registered id set, since
the id is tested for truthiness before membership; and `User.from_dict`
on a payload missing the `user_id` key defaults the id to 0. -/
theorem userFilter_rejects_zero_id (ids : List Int) (u : Update)
    (h : resolvedUserId u = some 0) (es : List (String × RawVal))
    (hes : es.lookup "user_id" = Option.none) :
    (Filter.user ids).check u = false ∧
    ∃ usr, User.from_dict (.dict es) = .ok usr ∧ usr.user_id = 0 := by
  constructor
  · simp [Filter.check, h]
  · refine ⟨_, rfl, ?_⟩
    show ((es.lookup "user_id").getD (.int 0)).asIntD 0 = 0
    rw [hes]
    rfl

/-- C10 witness: the zero-id rejection at `zeroIdUpdate` with 0
registered, and the defaulting on the empty payload dict. -/
theorem userFilter_rejects_zero_id_witness :
    (Filter.user [0]).check zeroIdUpdate = false ∧
    ∃ usr, User.from_dict (.dict []) = .ok usr ∧ usr.user_id = 0 :=
  userFilter_rejects_zero_id [0] zeroIdUpdate rfl [] rfl

/-- C1 (code bug): both handlers match `sampleUpdate`; the first one's
callback raises, the error is caught, but because the `break` sits
inside the `try`, `process_update` continues and also invokes the second
handler — dispatch does not end with the first matching handler, so a
later handler does execute after the first matching handler failed. -/
theorem processUpdate_runs_later_handler_after_raise :
    Handler.check raisingHandler sampleUpdate = true ∧
    Handler.check okHandler sampleUpdate = true ∧
    Handler.handle raisingHandler sampleUpdate = .error "boom" ∧
    processUpdate [raisingHandler, okHandler] sampleUpdate = [0, 1] :=
  ⟨rfl, rfl, rfl, rfl⟩


/-- C6: `CommandFilter` normalizes every registered command to start with
`/`; its check accepts exactly a message whose non-empty text, after
stripping, starts with `/` and whose first whitespace-separated token,
with any `@name` suffix removed, is one of the normalized commands; in
particular both `start` and `/start` match text `/start@botname arg`
(see `sampleUpdate`), and text that does not start with `/` after
stripping never matches. -/
theorem commandFilter_spec (cmds : List String) (hne : cmds ≠ []) (u : Update) :
    (mkCommandFilter cmds = .command (some (cmds.map (fun c =>
        if pyStartsWith c "/" then c else "/" ++ c))) ∧
      ∀ c ∈ cmds.map (fun c => if pyStartsWith c "/" then c else "/" ++ c),
        pyStartsWith c "/" = true) ∧
    ((mkCommandFilter cmds).check u = true ↔
      ∃ m t, u.message = some m ∧ m.body.text = some t ∧ t ≠ "" ∧
        pyStartsWith (pyStrip t) "/" = true ∧
        pyBeforeAt (pyFirstToken (pyStrip t)) ∈ cmds.map (fun c =>
          if pyStartsWith c "/" then c else "/" ++ c)) ∧
    (mkCommandFilter ["start"]).check sampleUpdate = true ∧
    (mkCommandFilter ["/start"]).check sampleUpdate = true ∧
    (∀ m t, u.message = some m → m.body.text = some t →
      pyStartsWith (pyStrip t) "/" = false →
        (mkCommandFilter cmds).check u = false) := by
  have hmk : mkCommandFilter cmds = .command (some (cmds.map (fun c =>
      if pyStartsWith c "/" then c else "/" ++ c))) := by
    simp [mkCommandFilter, List.isEmpty_iff, hne]
  refine ⟨⟨hmk, ?_⟩, ?_, rfl, rfl, ?_⟩
  · intro c hc
    rw [List.mem_map] at hc
    obtain ⟨c0, _, rfl⟩ := hc
    by_cases h0 : pyStartsWith c0 "/" = true
    · rw [if_pos h0]
      exact h0
    · rw [if_neg h0]
      simp [pyStartsWith, String.data_append, List.isPrefixOf]
  · rw [hmk]
    cases hm : u.message with
    | none => simp [Filter.check, hm]
    | some m =>
      cases ht : m.body.text with
      | none => simp [Filter.check, hm, Message.text, ht]
      | some t =>
        by_cases hT : t = ""
        · simp [Filter.check, hm, Message.text, ht, hT]
        · by_cases hS : pyStartsWith (pyStrip t) "/"
          · simp [Filter.check, hm, Message.text, ht, hT, hS, List.elem_iff]
          · simp [Filter.check, hm, Message.text, ht, hT, hS]
  · intro m t hm2 ht2 hns
    rw [hmk]
    by_cases hT : t = "" <;>
      simp [Filter.check, hm2, Message.text, ht2, hns, hT]

/-- C6 witness: the specification at the registered command list
`["start"]` and the concrete `sampleUpdate`. -/
theorem commandFilter_spec_witness :
    (mkCommandFilter ["start"] = .command (some (["start"].map (fun c =>
        if pyStartsWith c "/" then c else "/" ++ c))) ∧
      ∀ c ∈ (["start"] : List String).map (fun c =>
          if pyStartsWith c "/" then c else "/" ++ c),
        pyStartsWith c "/" = true) ∧
    ((mkCommandFilter ["start"]).check sampleUpdate = true ↔
      ∃ m t, sampleUpdate.message = some m ∧ m.body.text = some t ∧ t ≠ "" ∧
        pyStartsWith (pyStrip t) "/" = true ∧
        pyBeforeAt (pyFirstToken (pyStrip t)) ∈ (["start"] : List String).map (fun c =>
          if pyStartsWith c "/" then c else "/" ++ c)) ∧
    (mkCommandFilter ["start"]).check sampleUpdate = true ∧
    (mkCommandFilter ["/start"]).check sampleUpdate = true ∧
    (∀ m t, sampleUpdate.message = some m → m.body.text = some t →
      pyStartsWith (pyStrip t) "/" = false →
        (mkCommandFilter ["start"]).check sampleUpdate = false) :=
  commandFilter_spec ["start"] (by simp) sampleUpdate

/-- C2: when the transport fetch fails (`get_updates` returned a falsy
result), the cycle consists of the fetch with the current marker and a
fixed `sleep(5)`, the marker is left unchanged, and the next cycle of
the loop is an ordinary poll with the identical marker — a failed fetch
never advances the cursor. -/
theorem pollCycle_transport_failure (handlers : List Handler)
    (marker : Option RawVal) (result : RawVal) (hfail : result.truthy = false)
    (next : RawVal) :
    pollCycle handlers marker result = .ok ([.fetch marker, .sleep 5], marker) ∧
    runCycles handlers marker [result, next] =
      (pollCycle handlers marker next).map
        (fun p => (PollEvent.fetch marker :: PollEvent.sleep 5 :: p.1, p.2)) := by
  have h1 : pollCycle handlers marker result = .ok ([.fetch marker, .sleep 5], marker) := by
    unfold pollCycle
    rw [hfail]
    rfl
  refine ⟨h1, ?_⟩
  cases hp : pollCycle handlers marker next with
  | error e => simp [runCycles, h1, hp, exceptBind_ok, exceptBind_err, Except.map]
  | ok p => simp [runCycles, h1, hp, exceptBind_ok, exceptBind_err, Except.map]

/-- C2 witness: a failed fetch (result `None`) at marker 1. -/
theorem pollCycle_transport_failure_witness :
    pollCycle [] (some (RawVal.int 1)) RawVal.none
        = .ok ([.fetch (some (RawVal.int 1)), .sleep 5], some (RawVal.int 1)) ∧
    runCycles [] (some (RawVal.int 1)) [RawVal.none, RawVal.none] =
      (pollCycle [] (some (RawVal.int 1)) RawVal.none).map
        (fun p => (PollEvent.fetch (some (RawVal.int 1)) :: PollEvent.sleep 5 :: p.1, p.2)) :=
  pollCycle_transport_failure [] (some (RawVal.int 1)) RawVal.none rfl RawVal.none

/-- C3: on a successful cycle (truthy dict result whose `updates` value
reads as the list `recs`), every raw record of the page is classified
and dispatched in array order — one `processRecord` event per record, in
order — and only after all of them does the `markerSet` event occur; the
cursor advances to the page's returned `marker` iff that token is
present (and non-null), otherwise it stays unchanged.  The marker is
mutated nowhere else: `processRecord` does not touch it, and the cycle's
resulting marker is determined exactly by the rule below. -/
theorem pollCycle_success_page (handlers : List Handler)
    (marker : Option RawVal) (es : List (String × RawVal)) (recs : List RawVal)
    (htr : (RawVal.dict es).truthy = true)
    (hupd : (es.lookup "updates").getD (.list []) = .list recs) :
    pollCycle handlers marker (.dict es) =
      .ok (PollEvent.fetch marker :: recs.map (processRecord handlers)
            ++ (match optLookup es "marker" with
                | some m => [PollEvent.markerSet m]
                | Option.none => []),
           (match optLookup es "marker" with
            | some m => some m
            | Option.none => marker)) := by
  unfold pollCycle
  rw [htr]
  show (do
      let updates ← RawVal.getD (.dict es) "updates" (.list [])
      let new_marker ← RawVal.getOpt (.dict es) "marker"
      let recs ← updates.pyIter
      let events := recs.map (processRecord handlers)
      match new_marker with
      | some m => pure (PollEvent.fetch marker :: events ++ [PollEvent.markerSet m], some m)
      | Option.none => pure (PollEvent.fetch marker :: events, marker)) = _
  rw [rawGetD_dict, exceptBind_ok, hupd, rawGetOpt_dict]
  cases ho : optLookup es "marker" with
  | some m => simp [exceptBind_ok, pyIter_list, ho, exceptPure_ok]
  | none => simp [exceptBind_ok, pyIter_list, ho, exceptPure_ok]

/-- C3 witness: a concrete page containing the scenario-A record and
marker 9, polled from marker 1 with no handlers. -/
theorem pollCycle_success_page_witness :
    pollCycle [] (some (RawVal.int 1))
        (.dict [("updates", .list [.dict scenarioA]), ("marker", .int 9)]) =
      .ok (PollEvent.fetch (some (RawVal.int 1))
            :: [RawVal.dict scenarioA].map (processRecord [])
            ++ (match optLookup [("updates", RawVal.list [RawVal.dict scenarioA]),
                  ("marker", RawVal.int 9)] "marker" with
                | some m => [PollEvent.markerSet m]
                | Option.none => []),
           (match optLookup [("updates", RawVal.list [RawVal.dict scenarioA]),
                  ("marker", RawVal.int 9)] "marker" with
            | some m => some m
            | Option.none => some (RawVal.int 1))) :=
  pollCycle_success_page [] (some (RawVal.int 1))
    [("updates", .list [.dict scenarioA]), ("marker", .int 9)]
    [.dict scenarioA] rfl rfl


/-- A value passes `dictShaped` exactly when it is a dict. -/
theorem dictShaped_iff (w : RawVal) : dictShaped w = true ↔ ∃ es, w = .dict es := by
  cases w <;> simp [dictShaped]

/-- Source `User.from_dict` on a dict never raises. -/
theorem user_from_dict_ok (es : List (String × RawVal)) :
    ∃ x, User.from_dict (.dict es) = .ok x := ⟨_, rfl⟩

/-- Source `Recipient.from_dict` on a dict never raises. -/
theorem recipient_from_dict_ok (es : List (String × RawVal)) :
    ∃ x, Recipient.from_dict (.dict es) = .ok x := ⟨_, rfl⟩

/-- Source `Attachment.from_dict` on a dict never raises. -/
theorem attachment_from_dict_ok (es : List (String × RawVal)) :
    ∃ x, Attachment.from_dict (.dict es) = .ok x := ⟨_, rfl⟩

/-- Case split on an optional value by equations (shared helper). -/
theorem option_none_or_some {α : Type} (o : Option α) :
    o = Option.none ∨ ∃ a, o = some a := by
  cases o
  · exact Or.inl rfl
  · exact Or.inr ⟨_, rfl⟩

/-- Source `<$>` on an `Except.ok` (shared rewriting lemma). -/
theorem exceptMap_ok {α β : Type} (f : α → β) (a : α) :
    (f <$> (Except.ok a : Except String α)) = .ok (f a) := rfl

/-- Parsing a list of dict attachments never raises. -/
theorem attachments_mapM_ok (xs : List RawVal) (h : xs.all dictShaped = true) :
    ∃ ys, xs.mapM Attachment.from_dict = .ok ys := by
  induction xs with
  | nil => exact ⟨[], rfl⟩
  | cons x xs ih =>
    simp only [List.all_cons, Bool.and_eq_true] at h
    obtain ⟨hx, hxs⟩ := h
    obtain ⟨ys, hys⟩ := ih hxs
    obtain ⟨es, rfl⟩ := (dictShaped_iff x).mp hx
    exact ⟨_, by simp only [List.mapM_cons, hys]; rfl⟩

/-- Source `MessageBody.from_dict` on a well-shaped body dict never raises. -/
theorem body_from_dict_ok (es : List (String × RawVal))
    (h : bodyShaped (.dict es) = true) :
    ∃ x, MessageBody.from_dict (.dict es) = .ok x := by
  simp only [bodyShaped] at h
  unfold MessageBody.from_dict
  rw [rawGetD_dict, exceptBind_ok]
  obtain ha | ⟨w, ha⟩ := option_none_or_some (es.lookup "attachments")
  · simp only [ha, Option.getD_none]
    exact ⟨_, rfl⟩
  · simp only [ha, Option.getD_some] at h ⊢
    by_cases ht : w.truthy = true
    · simp only [ht, Bool.not_true, Bool.false_or] at h
      cases w with
      | list xs =>
        obtain ⟨ys, hys⟩ := attachments_mapM_ok xs h
        exact ⟨_, by rw [if_pos ht]; simp only [pyIter_list, exceptBind_ok, hys]; rfl⟩
      | none => simp at h
      | bool b => simp at h
      | int n => simp at h
      | str t => simp at h
      | dict fs => simp at h
    · exact ⟨_, by rw [if_neg ht]; rfl⟩

/-- Source `Message.from_dict` on a well-shaped message dict never raises. -/
theorem msg_from_dict_ok (es : List (String × RawVal))
    (h : msgShaped (.dict es) = true) :
    ∃ x, Message.from_dict (.dict es) = .ok x := by
  simp only [msgShaped, Bool.and_eq_true] at h
  obtain ⟨⟨hs, hr⟩, hb⟩ := h
  unfold Message.from_dict
  simp only [rawGetD_dict, exceptBind_ok]
  obtain ⟨r, hr2⟩ : ∃ r, Recipient.from_dict ((es.lookup "recipient").getD (.dict [])) = .ok r := by
    obtain hrl | ⟨w, hrl⟩ := option_none_or_some (es.lookup "recipient")
    · simp only [hrl, Option.getD_none]
      exact recipient_from_dict_ok []
    · simp only [hrl, Option.getD_some] at hr ⊢
      obtain ⟨fs, rfl⟩ := (dictShaped_iff w).mp hr
      exact recipient_from_dict_ok fs
  obtain ⟨b, hb2⟩ : ∃ b, MessageBody.from_dict ((es.lookup "body").getD (.dict [])) = .ok b := by
    obtain hbl | ⟨w, hbl⟩ := option_none_or_some (es.lookup "body")
    · simp only [hbl, Option.getD_none]
      exact body_from_dict_ok [] rfl
    · simp only [hbl, Option.getD_some] at hb ⊢
      cases w with
      | dict fs => exact body_from_dict_ok fs hb
      | none => simp [bodyShaped] at hb
      | bool b => simp [bodyShaped] at hb
      | int n => simp [bodyShaped] at hb
      | str t => simp [bodyShaped] at hb
      | list xs => simp [bodyShaped] at hb
  by_cases hst : ((es.lookup "sender").getD RawVal.none).truthy = true
  · obtain ⟨x0, hx0⟩ : ∃ x, User.from_dict ((es.lookup "sender").getD RawVal.none) = .ok x := by
      obtain hsl | ⟨w, hsl⟩ := option_none_or_some (es.lookup "sender")
      · rw [hsl] at hst
        simp [RawVal.truthy] at hst
      · simp only [hsl, Option.getD_some] at hs hst ⊢
        simp only [hst, Bool.not_true, Bool.false_or] at hs
        obtain ⟨fs, rfl⟩ := (dictShaped_iff w).mp hs
        exact user_from_dict_ok fs
    exact ⟨_, by rw [if_pos hst]; simp only [hx0, exceptMap_ok, exceptBind_ok, hr2, hb2]; rfl⟩
  · exact ⟨_, by rw [if_neg hst]; simp only [exceptPure_ok, exceptBind_ok, hr2, hb2]; rfl⟩

/-- Source `Callback.from_dict` on a well-shaped callback dict never raises. -/
theorem cb_from_dict_ok (es : List (String × RawVal)) (m : Option Message)
    (h : cbShaped (.dict es) = true) :
    ∃ x, Callback.from_dict (.dict es) m = .ok x := by
  simp only [cbShaped] at h
  unfold Callback.from_dict
  rw [rawGetD_dict, exceptBind_ok]
  obtain ⟨x0, hx0⟩ : ∃ x, User.from_dict ((es.lookup "user").getD (.dict [])) = .ok x := by
    obtain hul | ⟨w, hul⟩ := option_none_or_some (es.lookup "user")
    · simp only [hul, Option.getD_none]
      exact user_from_dict_ok []
    · simp only [hul, Option.getD_some] at h ⊢
      obtain ⟨fs, rfl⟩ := (dictShaped_iff w).mp h
      exact user_from_dict_ok fs
  exact ⟨_, by simp only [hx0, exceptBind_ok]; rfl⟩

/-- C5 counterexample: on the payload dict
`{"update_type": "message_created", "message": "hi"}` — whose `message`
value is a truthy non-dict — `Update.from_dict` raises
(`"hi".get("sender")` is an `AttributeError`), so `from_dict` does NOT
return an `Update` without raising for every raw payload dictionary. -/
theorem update_from_dict_raises :
    Update.from_dict (.dict [("update_type", .str "message_created"), ("message", .str "hi")])
      = .error "AttributeError" := rfl

/-- C5 (amended): on every payload dictionary whose sub-record values
have the expected container shapes (`updateShaped`), `Update.from_dict`
returns an `Update` without raising; an `update_type` string outside the
closed enumeration is preserved verbatim as the unclassified `other`
kind; and the message / callback / user sub-records are populated iff
the corresponding raw key is present and truthy (non-empty), absent keys
yielding `Option.none`. -/
theorem update_from_dict_wellshaped (es : List (String × RawVal))
    (h : updateShaped (.dict es) = true) :
    (∀ s, s ∉ knownKindStrings → classifyUpdateType (.str s) = .other (.str s)) ∧
    ∃ u, Update.from_dict (.dict es) = .ok u ∧
      u.update_type = classifyUpdateType ((es.lookup "update_type").getD (.str "")) ∧
      u.message.isSome = ((es.lookup "message").getD RawVal.none).truthy ∧
      u.callback.isSome = ((es.lookup "callback").getD RawVal.none).truthy ∧
      u.user.isSome = ((es.lookup "user").getD RawVal.none).truthy := by
  constructor
  · intro t ht
    simp [knownKindStrings] at ht
    obtain ⟨n1, n2, n3, n4, n5, n6, n7, n8, n9, n10, n11, n12⟩ := ht
    simp [classifyUpdateType, n1, n2, n3, n4, n5, n6, n7, n8, n9, n10, n11, n12]
  · simp only [updateShaped, Bool.and_eq_true] at h
    obtain ⟨⟨hm, hcb⟩, hu⟩ := h
    have hmsg : ((es.lookup "message").getD RawVal.none).truthy = true →
        ∃ x, Message.from_dict ((es.lookup "message").getD RawVal.none) = .ok x := by
      intro hmt
      obtain hml | ⟨w, hml⟩ := option_none_or_some (es.lookup "message")
      · rw [hml] at hmt
        simp [RawVal.truthy] at hmt
      · simp only [hml, Option.getD_some] at hm hmt ⊢
        simp only [hmt, Bool.not_true, Bool.false_or] at hm
        cases w with
        | dict fs => exact msg_from_dict_ok fs hm
        | none => simp [msgShaped] at hm
        | bool b => simp [msgShaped] at hm
        | int n => simp [msgShaped] at hm
        | str t => simp [msgShaped] at hm
        | list xs => simp [msgShaped] at hm
    have hcbk : ∀ m, ((es.lookup "callback").getD RawVal.none).truthy = true →
        ∃ x, Callback.from_dict ((es.lookup "callback").getD RawVal.none) m = .ok x := by
      intro m hct
      obtain hcl | ⟨w, hcl⟩ := option_none_or_some (es.lookup "callback")
      · rw [hcl] at hct
        simp [RawVal.truthy] at hct
      · simp only [hcl, Option.getD_some] at hcb hct ⊢
        simp only [hct, Bool.not_true, Bool.false_or] at hcb
        cases w with
        | dict fs => exact cb_from_dict_ok fs m hcb
        | none => simp [cbShaped] at hcb
        | bool b => simp [cbShaped] at hcb
        | int n => simp [cbShaped] at hcb
        | str t => simp [cbShaped] at hcb
        | list xs => simp [cbShaped] at hcb
    have husr : ((es.lookup "user").getD RawVal.none).truthy = true →
        ∃ x, User.from_dict ((es.lookup "user").getD RawVal.none) = .ok x := by
      intro hut
      obtain hul | ⟨w, hul⟩ := option_none_or_some (es.lookup "user")
      · rw [hul] at hut
        simp [RawVal.truthy] at hut
      · simp only [hul, Option.getD_some] at hu hut ⊢
        simp only [hut, Bool.not_true, Bool.false_or] at hu
        obtain ⟨fs, rfl⟩ := (dictShaped_iff w).mp hu
        exact user_from_dict_ok fs
    unfold Update.from_dict
    simp only [rawGetD_dict, rawGetOpt_dict, exceptBind_ok]
    have boolify : ∀ b : Bool, ¬ b = true → b = false := by
      intro b
      cases b <;> simp
    by_cases hmt : ((es.lookup "message").getD RawVal.none).truthy = true
    · obtain ⟨m0, hm0⟩ := hmsg hmt
      by_cases hct : ((es.lookup "callback").getD RawVal.none).truthy = true
      · obtain ⟨c0, hc0⟩ := hcbk (some m0) hct
        by_cases hut : ((es.lookup "user").getD RawVal.none).truthy = true
        · obtain ⟨u0, hu0⟩ := husr hut
          exact ⟨_, (by
            try rw [if_pos hmt]
            try simp only [hm0, exceptMap_ok, exceptBind_ok]
            try rw [if_pos hct]
            try simp only [hc0, exceptMap_ok, exceptBind_ok]
            try rw [if_pos hut]
            try simp only [hu0, exceptMap_ok, exceptBind_ok]
            try rfl), (by rfl), (by exact hmt.symm), (by exact hct.symm), (by exact hut.symm)⟩
        · exact ⟨_, (by
            try rw [if_pos hmt]
            try simp only [hm0, exceptMap_ok, exceptBind_ok]
            try rw [if_pos hct]
            try simp only [hc0, exceptMap_ok, exceptBind_ok]
            try rw [if_neg hut]
            try rfl), (by rfl), (by exact hmt.symm), (by exact hct.symm), (by exact (boolify _ hut).symm)⟩
      · by_cases hut : ((es.lookup "user").getD RawVal.none).truthy = true
        · obtain ⟨u0, hu0⟩ := husr hut
          exact ⟨_, (by
            try rw [if_pos hmt]
            try simp only [hm0, exceptMap_ok, exceptBind_ok]
            try rw [if_neg hct]
            try simp only [exceptPure_ok, exceptBind_ok]
            try rw [if_pos hut]
            try simp only [hu0, exceptMap_ok, exceptBind_ok]
            try rfl), (by rfl), (by exact hmt.symm), (by exact (boolify _ hct).symm), (by exact hut.symm)⟩
        · exact ⟨_, (by
            try rw [if_pos hmt]
            try simp only [hm0, exceptMap_ok, exceptBind_ok]
            try rw [if_neg hct]
            try simp only [exceptPure_ok, exceptBind_ok]
            try rw [if_neg hut]
            try rfl), (by rfl), (by exact hmt.symm), (by exact (boolify _ hct).symm), (by exact (boolify _ hut).symm)⟩
    · by_cases hct : ((es.lookup "callback").getD RawVal.none).truthy = true
      · obtain ⟨c0, hc0⟩ := hcbk Option.none hct
        by_cases hut : ((es.lookup "user").getD RawVal.none).truthy = true
        · obtain ⟨u0, hu0⟩ := husr hut
          exact ⟨_, (by
            try rw [if_neg hmt]
            try simp only [exceptPure_ok, exceptBind_ok]
            try rw [if_pos hct]
            try simp only [hc0, exceptMap_ok, exceptBind_ok]
            try rw [if_pos hut]
            try simp only [hu0, exceptMap_ok, exceptBind_ok]
            try rfl), (by rfl), (by exact (boolify _ hmt).symm), (by exact hct.symm), (by exact hut.symm)⟩
        · exact ⟨_, (by
            try rw [if_neg hmt]
            try simp only [exceptPure_ok, exceptBind_ok]
            try rw [if_pos hct]
            try simp only [hc0, exceptMap_ok, exceptBind_ok]
            try rw [if_neg hut]
            try rfl), (by rfl), (by exact (boolify _ hmt).symm), (by exact hct.symm), (by exact (boolify _ hut).symm)⟩
      · by_cases hut : ((es.lookup "user").getD RawVal.none).truthy = true
        · obtain ⟨u0, hu0⟩ := husr hut
          exact ⟨_, (by
            try rw [if_neg hmt]
            try simp only [exceptPure_ok, exceptBind_ok]
            try rw [if_neg hct]
            try simp only [exceptPure_ok, exceptBind_ok]
            try rw [if_pos hut]
            try simp only [hu0, exceptMap_ok, exceptBind_ok]
            try rfl), (by rfl), (by exact (boolify _ hmt).symm), (by exact (boolify _ hct).symm), (by exact hut.symm)⟩
        · exact ⟨_, (by
            try rw [if_neg hmt]
            try simp only [exceptPure_ok, exceptBind_ok]
            try rw [if_neg hct]
            try simp only [exceptPure_ok, exceptBind_ok]
            try rw [if_neg hut]
            try rfl), (by rfl), (by exact (boolify _ hmt).symm), (by exact (boolify _ hct).symm), (by exact (boolify _ hut).symm)⟩

/-- C5 witness: the amended statement at the concrete, well-shaped
scenario-A payload. -/
theorem update_from_dict_wellshaped_witness :
    (∀ s, s ∉ knownKindStrings → classifyUpdateType (.str s) = .other (.str s)) ∧
    ∃ u, Update.from_dict (.dict scenarioA) = .ok u ∧
      u.update_type = classifyUpdateType ((scenarioA.lookup "update_type").getD (.str "")) ∧
      u.message.isSome = ((scenarioA.lookup "message").getD RawVal.none).truthy ∧
      u.callback.isSome = ((scenarioA.lookup "callback").getD RawVal.none).truthy ∧
      u.user.isSome = ((scenarioA.lookup "user").getD RawVal.none).truthy :=
  update_from_dict_wellshaped scenarioA rfl

end Maxbot
